import Mathlib

/-
Verification of the airtouch4_advanced integration against its specification.

The development shallowly embeds the Python sources:
  - custom_components/airtouch4/climate.py   (referred to below as the custom variant)
  - airtouch4/climate.py, airtouch4/fan.py   (the core variant)
  - airtouch4/coordinator.py, airtouch4/const.py
  - custom_components/airtouch4_advanced/fan.py (the advanced variant)

Python floats are modelled as exact rationals (ℚ); Python ints as ℤ; a raised
exception as the error side of Except; a Python attribute that may be absent
(read through getattr with a default) as an Option field, with the getattr
default applied at the use site exactly as in the source.  Driver calls are
modelled as an emitted command list; a method that issues no driver call emits
the empty list.
-/

/-- Python int() applied to a float: truncation toward zero. -/
def pyInt (q : ℚ) : ℤ := if 0 ≤ q then ⌊q⌋ else -⌊-q⌋

/-- Python round() applied to a float: nearest integer, ties to even.  (In this
development it is only applied to values with fractional part a multiple of
1/5, so the tie branch is in fact unreachable, but it is modelled anyway.) -/
def pyRound (q : ℚ) : ℤ :=
  if q - ⌊q⌋ < 1/2 then ⌊q⌋
  else if 1/2 < q - ⌊q⌋ then ⌊q⌋ + 1
  else if ⌊q⌋ % 2 = 0 then ⌊q⌋ else ⌊q⌋ + 1

/-- The source expression round(desired / 5) * 5 from
ManualNonITCClimate.async_adjust_fan_speed (custom climate.py line 470). -/
def pyRound5 (n : ℤ) : ℤ := pyRound ((n : ℚ) / 5) * 5

/-- const.py: MIN_FAN_SPEED = 20. -/
def MIN_FAN_SPEED : ℤ := 20

/-- const.py: MAX_FAN_SPEED = 100. -/
def MAX_FAN_SPEED : ℤ := 100

/-- const.py: AUTO_MAX_TEMP = 40.0. -/
def AUTO_MAX_TEMP : ℚ := 40

/-- const.py: AUTO_MIN_TEMP = 15.0. -/
def AUTO_MIN_TEMP : ℚ := 15

/-- ManualNonITCClimate._calculate_open_percentage (custom climate.py
lines 400-433).  The Option result models the ZeroDivisionError Python raises
when the divisor AUTO_MAX_TEMP - target (resp. target - AUTO_MIN_TEMP) is
zero; `deviceOpen` is the OpenPercentage attribute of the group object read in
the fallback branch through getattr with default MIN_FAN_SPEED. -/
def calculate_open_percentage (current target : ℚ) (acMode : String)
    (deviceOpen : Option ℤ) : Option ℤ :=
  if acMode = "Cool" ∨ acMode = "AutoCool" ∨ acMode = "Auto" ∨ acMode = "Dry" then
    if current ≤ target then some MIN_FAN_SPEED
    else if AUTO_MAX_TEMP - target = 0 then none
    else some (pyInt ((MIN_FAN_SPEED : ℚ) +
      min ((current - target) / (AUTO_MAX_TEMP - target)) 1 *
        ((MAX_FAN_SPEED : ℚ) - (MIN_FAN_SPEED : ℚ))))
  else if acMode = "Heat" ∨ acMode = "AutoHeat" then
    if current ≥ target then some MIN_FAN_SPEED
    else if target - AUTO_MIN_TEMP = 0 then none
    else some (pyInt ((MIN_FAN_SPEED : ℚ) +
      min ((target - current) / (target - AUTO_MIN_TEMP)) 1 *
        ((MAX_FAN_SPEED : ℚ) - (MIN_FAN_SPEED : ℚ))))
  else some (deviceOpen.getD MIN_FAN_SPEED)

/-- Clamp a rational into the unit interval, as written in the spec. -/
def clamp01 (x : ℚ) : ℚ := max 0 (min x 1)

/-- Modelled from the spec (section 4.3 control law): aperture as a real-valued
function, with fraction clamp((c-t)/(AUTO_MAX_TEMP-t), 0, 1) for the cooling
family, the symmetric form for the heating family, the degenerate divisor
treated as fraction = 1, and the device-reported aperture otherwise.  This is
the comparison point for refinement claims about the source function
calculate_open_percentage; it is written from the words of the spec, not from
the code. -/
def spec_open_percentage (c t : ℚ) (m : String) (deviceOpen : ℤ) : ℚ :=
  if m = "Cool" ∨ m = "AutoCool" ∨ m = "Auto" ∨ m = "Dry" then
    if c ≤ t then (MIN_FAN_SPEED : ℚ)
    else (MIN_FAN_SPEED : ℚ) +
      (if AUTO_MAX_TEMP - t = 0 then 1 else clamp01 ((c - t) / (AUTO_MAX_TEMP - t))) *
        ((MAX_FAN_SPEED : ℚ) - (MIN_FAN_SPEED : ℚ))
  else if m = "Heat" ∨ m = "AutoHeat" then
    if c ≥ t then (MIN_FAN_SPEED : ℚ)
    else (MIN_FAN_SPEED : ℚ) +
      (if t - AUTO_MIN_TEMP = 0 then 1 else clamp01 ((t - c) / (t - AUTO_MIN_TEMP))) *
        ((MAX_FAN_SPEED : ℚ) - (MIN_FAN_SPEED : ℚ))
  else (deviceOpen : ℚ)

/-- Numeric value of a list of decimal digit characters. -/
def natOfDigits (l : List Char) : ℕ := l.foldl (fun a c => a * 10 + (c.toNat - 48)) 0

/-- Character-level half of Python float() on a plain decimal literal:
optional surrounding whitespace, optional sign, digits with at most one
point, at least one digit overall.  Returns the sign flag, the integer-part
digits and the fraction digits; none models the ValueError raised on any
other string. -/
def pyFloatParts (s : String) : Option (Bool × List Char × List Char) :=
  let cs := ((s.data.dropWhile Char.isWhitespace).reverse.dropWhile Char.isWhitespace).reverse
  let neg : Bool := match cs with
    | '-' :: _ => true
    | _ => false
  let body : List Char := match cs with
    | '-' :: rest => rest
    | '+' :: rest => rest
    | _ => cs
  let intPart := body.takeWhile (fun c => c ≠ '.')
  let rest := body.dropWhile (fun c => c ≠ '.')
  match rest with
  | [] =>
    if !intPart.isEmpty && intPart.all Char.isDigit then some (neg, intPart, [])
    else none
  | _ :: frac =>
    if (!intPart.isEmpty || !frac.isEmpty) && intPart.all Char.isDigit
        && frac.all Char.isDigit then
      some (neg, intPart, frac)
    else none

/-- Numeric value of a parsed decimal literal. -/
def partsToRat (p : Bool × List Char × List Char) : ℚ :=
  (if p.1 then (-1 : ℚ) else 1) *
    ((natOfDigits p.2.1 : ℚ) + (natOfDigits p.2.2 : ℚ) / (10 : ℚ) ^ p.2.2.length)

/-- Python float() applied to a string, restricted to plain decimal literals;
none models the ValueError the source catches (returning None). -/
def pyFloat (s : String) : Option ℚ :=
  (pyFloatParts s).map partsToRat

/-- ManualNonITCClimate.current_temperature (custom climate.py lines 353-368):
none when no sensor entity is bound (None or the falsy empty string), the
state object is missing, the state is the literal "unknown" or "unavailable",
or float() fails on the state string. -/
def current_temperature (sensorEntityId : Option String)
    (sensorState : Option String) : Option ℚ :=
  match sensorEntityId with
  | none => none
  | some sid =>
    if sid = "" then none
    else
      match sensorState with
      | none => none
      | some st =>
        if st = "unknown" ∨ st = "unavailable" then none
        else pyFloat st

/-- Raw per-zone state as read from the device library by the controller tick;
Option fields are attributes read through getattr. -/
structure AirTouchGroupState where
  groupNumber : ℕ
  powerState : Option String
  belongsToAc : Option ℕ
  openPercentage : Option ℤ
deriving DecidableEq

/-- Raw per-unit state as read from the device library; Option fields are
attributes read through getattr. -/
structure AirTouchAcState where
  powerState : Option String
  acMode : Option String
  acFanSpeed : Option String
deriving DecidableEq

/-- World state visible to one controller tick for one percentage-actuated
zone: the zone, the device library AC list, and the bound sensor. -/
structure TickState where
  group : AirTouchGroupState
  acs : List AirTouchAcState
  sensorEntityId : Option String
  sensorState : Option String
deriving DecidableEq

/-- ManualNonITCClimate.async_adjust_fan_speed (custom climate.py
lines 435-477).  Result: ok none when a gate fires and the tick is a no-op;
ok (some (g, v)) when SetGroupToPercentage(g, v) is issued; error for the
exceptions the body can raise (IndexError on GetAcs()[belongs_to],
ZeroDivisionError inside _calculate_open_percentage). -/
def adjust_fan_speed (s : TickState) (target : ℚ) : Except String (Option (ℕ × ℤ)) :=
  if s.group.powerState.getD "Off" = "Off" then Except.ok none
  else
    match s.group.belongsToAc with
    | none => Except.ok none
    | some b =>
      match s.acs.get? b with
      | none => Except.error "IndexError"
      | some ac =>
        if ac.powerState.getD "Off" = "Off" then Except.ok none
        else
          match current_temperature s.sensorEntityId s.sensorState with
          | none => Except.ok none
          | some c =>
            match calculate_open_percentage c target (ac.acMode.getD "Fan")
                s.group.openPercentage with
            | none => Except.error "ZeroDivisionError"
            | some d => Except.ok (some (s.group.groupNumber, pyRound5 d))

/-- Driver health after UpdateInfo, as the spec's Health ok-or-error. -/
inductive Health where
  | ok
  | err
deriving DecidableEq

/-- Raw AC object delivered by the device library; Option fields are the
attributes the coordinator reads through getattr. -/
structure RawAc where
  acNumber : ℕ
  acName : Option String
  isOn : Bool
  powerState : Option String
  acMode : Option String
  acFanSpeed : Option String
  temperature : Option ℚ
  minSetpoint : Option ℚ
  maxSetpoint : Option ℚ
deriving DecidableEq

/-- Raw group object delivered by the device library. -/
structure RawGroup where
  groupNumber : ℕ
  groupName : String
  isOn : Bool
  powerState : Option String
  openPercentage : Option ℤ
  controlMethod : Option String
  temperature : Option ℚ
  targetSetpoint : Option ℚ
deriving DecidableEq

/-- One AC entry of the dictionary the coordinator builds
(coordinator.py lines 48-58). -/
structure AcEntry where
  ac_number : ℕ
  ac_name : String
  is_on : Bool
  power_state : String
  ac_mode : String
  fan_speed : String
  temperature : Option ℚ
  min_setpoint : Option ℚ
  max_setpoint : Option ℚ
deriving DecidableEq

/-- One group entry of the dictionary the coordinator builds
(coordinator.py lines 63-72). -/
structure GroupEntry where
  group_number : ℕ
  group_name : String
  is_on : Bool
  power_state : String
  open_percent : ℤ
  control_method : String
  temperature : Option ℚ
  target_setpoint : Option ℚ
deriving DecidableEq

/-- The ac_entry construction of coordinator.py lines 48-58, with the getattr
defaults written there. -/
def buildAcEntry (ac : RawAc) : AcEntry :=
  { ac_number := ac.acNumber
    ac_name := ac.acName.getD ("AC " ++ toString ac.acNumber)
    is_on := ac.isOn
    power_state := ac.powerState.getD "Unknown"
    ac_mode := ac.acMode.getD "Unknown"
    fan_speed := ac.acFanSpeed.getD "Auto"
    temperature := ac.temperature
    min_setpoint := ac.minSetpoint
    max_setpoint := ac.maxSetpoint }

/-- The group_entry construction of coordinator.py lines 63-72, with the
getattr defaults written there. -/
def buildGroupEntry (g : RawGroup) : GroupEntry :=
  { group_number := g.groupNumber
    group_name := g.groupName
    is_on := g.isOn
    power_state := g.powerState.getD "Unknown"
    open_percent := g.openPercentage.getD 0
    control_method := g.controlMethod.getD "Unknown"
    temperature := g.temperature
    target_setpoint := g.targetSetpoint }

/-- The dictionary returned by the coordinator on a successful poll. -/
structure CoordData where
  acs : List AcEntry
  groups : List GroupEntry
deriving DecidableEq

/-- Device driver state observed after UpdateInfo. -/
structure DriverState where
  status : Health
  acList : List RawAc
  groupList : List RawGroup
deriving DecidableEq

/-- AirtouchDataUpdateCoordinator._async_update_data (coordinator.py
lines 30-82): the refresh fails (UpdateFailed) when the driver health is not
OK, before any entry is constructed; otherwise it builds the new data from
the raw enumeration. -/
def update_data (d : DriverState) : Except String CoordData :=
  if d.status ≠ Health.ok then Except.error "Airtouch connection issue"
  else Except.ok { acs := d.acList.map buildAcEntry
                   groups := d.groupList.map buildGroupEntry }

/-- Modelled from the spec: the commit discipline of the supervising
DataUpdateCoordinator (an external collaborator, not in src/) - on a failed
update the previously committed data stays exposed to consumers and the
failure is surfaced as unavailability; on success the new data replaces it.
Returns the committed data and whether the refresh succeeded. -/
def coordinator_refresh (prev : Option CoordData) (d : DriverState) :
    Option CoordData × Bool :=
  match update_data d with
  | Except.error _ => (prev, false)
  | Except.ok nd => (some nd, true)

/-- Abstract Home Assistant HVAC mode vocabulary. -/
inductive HVACMode where
  | off
  | heat
  | cool
  | heatCool
  | auto
  | dry
  | fanOnly
deriving DecidableEq

/-- AT_TO_HA_STATE (both climate.py variants): device mode to abstract mode. -/
def AT_TO_HA_STATE (m : String) : Option HVACMode :=
  if m = "Heat" then some HVACMode.heat
  else if m = "Cool" then some HVACMode.cool
  else if m = "AutoHeat" then some HVACMode.auto
  else if m = "AutoCool" then some HVACMode.auto
  else if m = "Auto" then some HVACMode.auto
  else if m = "Dry" then some HVACMode.dry
  else if m = "Fan" then some HVACMode.fanOnly
  else none

/-- HA_STATE_TO_AT (both climate.py variants): abstract mode to device mode;
none models a key absent from the dictionary. -/
def HA_STATE_TO_AT : HVACMode → Option String
  | HVACMode.heat => some "Heat"
  | HVACMode.cool => some "Cool"
  | HVACMode.auto => some "Auto"
  | HVACMode.dry => some "Dry"
  | HVACMode.fanOnly => some "Fan"
  | HVACMode.off => some "Off"
  | HVACMode.heatCool => none

/-- Home Assistant fan mode constant. -/
def FAN_DIFFUSE : String := "diffuse"

/-- Home Assistant fan mode constant. -/
def FAN_LOW : String := "low"

/-- Home Assistant fan mode constant. -/
def FAN_MEDIUM : String := "medium"

/-- Home Assistant fan mode constant. -/
def FAN_HIGH : String := "high"

/-- Home Assistant fan mode constant. -/
def FAN_FOCUS : String := "focus"

/-- Home Assistant fan mode constant. -/
def FAN_AUTO : String := "auto"

/-- AT_TO_HA_FAN_SPEED (both climate.py variants): the fixed device-to-abstract
fan speed table; none models a key absent from the dictionary. -/
def AT_TO_HA_FAN_SPEED (s : String) : Option String :=
  if s = "Quiet" then some FAN_DIFFUSE
  else if s = "Low" then some FAN_LOW
  else if s = "Medium" then some FAN_MEDIUM
  else if s = "High" then some FAN_HIGH
  else if s = "Powerful" then some FAN_FOCUS
  else if s = "Auto" then some FAN_AUTO
  else if s = "Turbo" then some "turbo"
  else none

/-- AirtouchAC.fan_mode of the core climate.py (lines 184-188):
AT_TO_HA_FAN_SPEED.get(getattr(unit, "AcFanSpeed", "Auto"), FAN_AUTO). -/
def fan_mode_ac_core (acFanSpeed : Option String) : String :=
  (AT_TO_HA_FAN_SPEED (acFanSpeed.getD "Auto")).getD FAN_AUTO

/-- AirtouchAC.fan_mode of the custom climate.py (lines 146-149):
AT_TO_HA_FAN_SPEED.get(raw_speed, None) - the fallback is None, not Auto. -/
def fan_mode_ac_custom (acFanSpeed : Option String) : Option String :=
  AT_TO_HA_FAN_SPEED (acFanSpeed.getD "Auto")

/-- AirtouchGroup.fan_mode of the core climate.py (lines 469-472): a direct
dictionary subscript AT_TO_HA_FAN_SPEED[speed]; error models the KeyError
raised when the speed is absent from the table. -/
def fan_mode_group_core (acFanSpeed : String) : Except String String :=
  match AT_TO_HA_FAN_SPEED acFanSpeed with
  | some v => Except.ok v
  | none => Except.error "KeyError"

/-- AirtouchAC.fan_modes of the core climate.py (lines 190-194): a list
comprehension of direct subscripts, raising KeyError on an unknown speed. -/
def fan_modes_ac_core (speeds : List String) : Except String (List String) :=
  speeds.mapM (fun s =>
    match AT_TO_HA_FAN_SPEED s with
    | some v => Except.ok v
    | none => Except.error "KeyError")

/-- AirtouchAC.fan_modes of the custom climate.py (lines 151-154):
AT_TO_HA_FAN_SPEED.get(s, FAN_AUTO) over the supported speeds. -/
def fan_modes_ac_custom (speeds : List String) : List String :=
  speeds.map (fun s => (AT_TO_HA_FAN_SPEED s).getD FAN_AUTO)

/-- AirtouchGroup.hvac_mode of the custom climate.py (lines 243-247): Off when
the zone power state (getattr default Off) is Off, else FanOnly. -/
def hvac_mode_group_custom (powerState : Option String) : HVACMode :=
  if powerState.getD "Off" = "Off" then HVACMode.off else HVACMode.fanOnly

/-- ManualNonITCClimate.hvac_mode (custom climate.py lines 327-332). -/
def hvac_mode_manual (powerState : Option String) : HVACMode :=
  if powerState.getD "Off" = "Off" then HVACMode.off else HVACMode.fanOnly

/-- AirtouchGroup.hvac_mode of the core climate.py (lines 439-451): returns
Python None when the PowerState attribute is absent (the hasattr guard), else
Off or FanOnly. -/
def hvac_mode_group_core (powerState : Option String) : Option HVACMode :=
  match powerState with
  | none => none
  | some p => some (if p = "Off" then HVACMode.off else HVACMode.fanOnly)

/-- Driver commands and the follow-up refresh request, in issue order. -/
inductive Cmd where
  | turnGroupOn (g : ℕ)
  | turnGroupOff (g : ℕ)
  | turnAcOn (a : ℕ)
  | turnAcOff (a : ℕ)
  | setGroupToPercentage (g : ℕ) (p : ℤ)
  | setCoolingModeForAc (a : ℕ) (m : String)
  | requestRefresh
deriving DecidableEq

/-- AirtouchGroup.async_turn_on (custom climate.py lines 257-263 and core
climate.py lines 505-518): zone power on, owning AC power on, then a
coordinator refresh request. -/
def turn_on_group (g belongsTo : ℕ) : List Cmd :=
  [Cmd.turnGroupOn g, Cmd.turnAcOn belongsTo, Cmd.requestRefresh]

/-- AirtouchGroup.async_turn_off (custom climate.py lines 265-269 and core
climate.py lines 520-528): zone power off then a coordinator refresh
request. -/
def turn_off_group (g : ℕ) : List Cmd :=
  [Cmd.turnGroupOff g, Cmd.requestRefresh]

/-- ManualNonITCClimate.async_set_hvac_mode (custom climate.py lines 338-343):
Off turns the zone off; every other requested mode turns the zone on.  No
mode is ever rejected. -/
def set_hvac_mode_manual (g : ℕ) (m : HVACMode) : List Cmd :=
  if m = HVACMode.off then [Cmd.turnGroupOff g] else [Cmd.turnGroupOn g]

/-- AirtouchGroup.async_set_hvac_mode of the custom climate.py
(lines 249-255): Off turns the zone off; any other mode turns the zone on
when it is currently off, and otherwise does nothing.  No mode is ever
rejected. -/
def set_hvac_mode_group_custom (g belongsTo : ℕ) (powerState : Option String)
    (m : HVACMode) : List Cmd :=
  if m = HVACMode.off then turn_off_group g
  else if hvac_mode_group_custom powerState = HVACMode.off then
    turn_on_group g belongsTo
  else []

/-- AirtouchGroup.async_set_hvac_mode of the core climate.py (lines 453-467):
raises ValueError only for a mode absent from HA_STATE_TO_AT (the full device
table, so Heat, Cool, Auto, Dry, FanOnly all pass the check); Off turns the
zone off, any other accepted mode turns the zone on when it is currently
off. -/
def set_hvac_mode_group_core (g belongsTo : ℕ) (powerState : Option String)
    (m : HVACMode) : Except String (List Cmd) :=
  match HA_STATE_TO_AT m with
  | none => Except.error "Unsupported HVAC mode"
  | some _ =>
    if m = HVACMode.off then Except.ok (turn_off_group g)
    else if hvac_mode_group_core powerState = some HVACMode.off then
      Except.ok (turn_on_group g belongsTo)
    else Except.ok []

/-- Controller-held state of a ManualNonITCClimate entity: the locally stored
target temperature (the device holds no setpoint for this contract). -/
structure ManualNonITCClimateState where
  target_temp : ℚ
deriving DecidableEq

/-- ManualNonITCClimate.__init__ (custom climate.py lines 305-320): the target
temperature starts at 24.0. -/
def manual_climate_init : ManualNonITCClimateState := { target_temp := 24 }

/-- ManualNonITCClimate.async_set_temperature (custom climate.py
lines 374-381): absent temperature argument is a no-op; otherwise the local
target is replaced.  No driver command is issued either way. -/
def async_set_temperature (st : ManualNonITCClimateState)
    (kwargsTemperature : Option ℚ) : ManualNonITCClimateState × List Cmd :=
  match kwargsTemperature with
  | none => (st, [])
  | some t => ({ target_temp := t }, [])

/-- ManualNonITCClimate._handle_coordinator_update (custom climate.py
lines 322-325): a coordinator update does not touch the local target. -/
def handle_coordinator_update_manual (st : ManualNonITCClimateState) :
    ManualNonITCClimateState := st

/-- One controller tick as seen from the entity: async_adjust_fan_speed reads
the stored target and never assigns it, so the entity state is returned
unchanged alongside the tick outcome. -/
def adjust_fan_speed_step (st : ManualNonITCClimateState) (s : TickState) :
    ManualNonITCClimateState × Except String (Option (ℕ × ℤ)) :=
  (st, adjust_fan_speed s st.target_temp)

/-- AirtouchFan.async_set_percentage of the core fan.py (lines 130-138):
0 percent turns the zone off; any other value issues one aperture command. -/
def async_set_percentage_core (g : ℕ) (percentage : ℤ) : List Cmd :=
  if percentage = 0 then [Cmd.turnGroupOff g]
  else [Cmd.setGroupToPercentage g percentage]

/-- AirtouchFan.async_set_percentage of the advanced fan.py (lines 143-151):
identical shape; the int() cast there is the identity on an integer input. -/
def async_set_percentage_advanced (g : ℕ) (percentage : ℤ) : List Cmd :=
  if percentage = 0 then [Cmd.turnGroupOff g]
  else [Cmd.setGroupToPercentage g percentage]

/-- Concrete tick state whose zone is powered off; used to exercise the
gating theorem. -/
def tickStateZoneOff : TickState :=
  { group := { groupNumber := 1, powerState := some "Off", belongsToAc := some 0,
               openPercentage := none },
    acs := [{ powerState := some "On", acMode := some "Cool", acFanSpeed := none }],
    sensorEntityId := some "sensor.t", sensorState := some "25" }

/-- Concrete tick state whose owning unit is in mode Fan and whose zone
reports aperture 0; the tick re-issues the rounded device aperture 0. -/
def tickStateFanModeZero : TickState :=
  { group := { groupNumber := 2, powerState := some "On", belongsToAc := some 0,
               openPercentage := some 0 },
    acs := [{ powerState := some "On", acMode := some "Fan", acFanSpeed := none }],
    sensorEntityId := some "sensor.t", sensorState := some "25" }

/-- Concrete tick state in mode Cool with sensor reading 31; with target 22
the tick issues aperture 60. -/
def tickStateCool : TickState :=
  { group := { groupNumber := 1, powerState := some "On", belongsToAc := some 0,
               openPercentage := none },
    acs := [{ powerState := some "On", acMode := some "Cool", acFanSpeed := none }],
    sensorEntityId := some "sensor.t", sensorState := some "31" }

/-- Raw AC object with every getattr-read attribute absent. -/
def rawAcAbsent : RawAc :=
  { acNumber := 0, acName := none, isOn := false, powerState := none,
    acMode := none, acFanSpeed := none, temperature := none,
    minSetpoint := none, maxSetpoint := none }

/-- Raw group object with every getattr-read attribute absent. -/
def rawGroupAbsent : RawGroup :=
  { groupNumber := 0, groupName := "Zone 0", isOn := false, powerState := none,
    openPercentage := none, controlMethod := none, temperature := none,
    targetSetpoint := none }

theorem natOfDigits_nil : natOfDigits [] = 0 := rfl

theorem pyInt_of_nonneg {q : ℚ} (h : 0 ≤ q) : pyInt q = ⌊q⌋ := by
  rw [pyInt, if_pos h]

theorem pyRound_cases (q : ℚ) : pyRound q = ⌊q⌋ ∨ pyRound q = ⌊q⌋ + 1 := by
  rw [pyRound]
  split_ifs <;> simp

theorem le_pyRound {a : ℤ} {q : ℚ} (h : (a : ℚ) ≤ q) : a ≤ pyRound q := by
  have hf : a ≤ ⌊q⌋ := Int.le_floor.mpr h
  rcases pyRound_cases q with h1 | h1 <;> omega

theorem pyRound_le {b : ℤ} {q : ℚ} (h : q ≤ (b : ℚ)) : pyRound q ≤ b := by
  have hfb : ⌊q⌋ ≤ b := by
    have := Int.floor_le_floor h
    rwa [Int.floor_intCast] at this
  rw [pyRound]
  split_ifs with h1 h2 h3
  · exact hfb
  · have hlt : (⌊q⌋ : ℚ) < (b : ℚ) := by
      have := Int.floor_le q
      linarith
    have : ⌊q⌋ < b := by exact_mod_cast hlt
    omega
  · exact hfb
  · have hge : (1 : ℚ)/2 ≤ q - ⌊q⌋ := le_of_not_lt h1
    have hlt : (⌊q⌋ : ℚ) < (b : ℚ) := by linarith
    have : ⌊q⌋ < b := by exact_mod_cast hlt
    omega

theorem pyRound5_dvd (n : ℤ) : (5 : ℤ) ∣ pyRound5 n := by
  rw [pyRound5]
  exact dvd_mul_left 5 _

theorem pyRound5_range {n : ℤ} (h1 : 20 ≤ n) (h2 : n ≤ 100) :
    20 ≤ pyRound5 n ∧ pyRound5 n ≤ 100 := by
  have hl : (4 : ℚ) ≤ (n : ℚ) / 5 := by
    rw [le_div_iff₀ (by norm_num)]
    norm_num
    exact_mod_cast h1
  have hu : (n : ℚ) / 5 ≤ (20 : ℚ) := by
    rw [div_le_iff₀ (by norm_num)]
    norm_num
    exact_mod_cast h2
  have hll := le_pyRound (a := 4) (q := (n : ℚ) / 5) (by exact_mod_cast hl)
  have huu := pyRound_le (b := 20) (q := (n : ℚ) / 5) (by exact_mod_cast hu)
  rw [pyRound5]
  omega

theorem pyRound_int_add_small (k : ℤ) (x : ℚ) (h0 : 0 ≤ x) (h1 : x < 1) :
    pyRound ((k : ℚ) + x)
      = if x < 1/2 then k else if 1/2 < x then k + 1
        else if k % 2 = 0 then k else k + 1 := by
  have hf : ⌊(k : ℚ) + x⌋ = k := by
    rw [Int.floor_int_add, Int.floor_eq_zero_iff.mpr ⟨h0, h1⟩, add_zero]
  have hr : (k : ℚ) + x - (⌊(k : ℚ) + x⌋ : ℚ) = x := by
    rw [hf]; ring
  rw [pyRound, hr, hf]

theorem pyRound5_near (n : ℤ) : |pyRound5 n - n| ≤ 2 := by
  obtain ⟨k, r, hr0, hr5, rfl⟩ : ∃ k r, 0 ≤ r ∧ r < 5 ∧ n = 5 * k + r :=
    ⟨n / 5, n % 5, Int.emod_nonneg n (by norm_num),
      Int.emod_lt_of_pos n (by norm_num), by omega⟩
  have hq : ((5 * k + r : ℤ) : ℚ) / 5 = (k : ℚ) + (r : ℚ) / 5 := by
    push_cast; ring
  rw [pyRound5, hq]
  interval_cases r <;>
    rw [pyRound_int_add_small k _ (by norm_num) (by norm_num)] <;>
    norm_num <;> (rw [abs_le]; omega)

theorem calc_cool_range {c t : ℚ} {m : String} {dp : Option ℤ} {d : ℤ}
    (hm : m = "Cool" ∨ m = "AutoCool" ∨ m = "Auto" ∨ m = "Dry")
    (ht : t < 40)
    (h : calculate_open_percentage c t m dp = some d) :
    20 ≤ d ∧ d ≤ 100 := by
  rw [calculate_open_percentage, if_pos hm] at h
  by_cases hc : c ≤ t
  · rw [if_pos hc] at h
    rw [MIN_FAN_SPEED] at h
    obtain rfl : (20 : ℤ) = d := Option.some.inj h
    omega
  · rw [if_neg hc] at h
    have hden : (0 : ℚ) < AUTO_MAX_TEMP - t := by
      rw [AUTO_MAX_TEMP]; linarith
    rw [if_neg (by linarith)] at h
    set f := (c - t) / (AUTO_MAX_TEMP - t) with hf
    have hf0 : 0 < f := div_pos (by linarith [not_le.mp hc]) hden
    have hmin0 : (0 : ℚ) ≤ min f 1 := le_min hf0.le zero_le_one
    have hmin1 : min f 1 ≤ 1 := min_le_right f 1
    have hq20 : (20 : ℚ)
        ≤ (MIN_FAN_SPEED : ℚ) + min f 1 * ((MAX_FAN_SPEED : ℚ) - (MIN_FAN_SPEED : ℚ)) := by
      rw [MIN_FAN_SPEED, MAX_FAN_SPEED]
      push_cast
      nlinarith
    have hq100 : (MIN_FAN_SPEED : ℚ) + min f 1 * ((MAX_FAN_SPEED : ℚ) - (MIN_FAN_SPEED : ℚ))
        ≤ 100 := by
      rw [MIN_FAN_SPEED, MAX_FAN_SPEED]
      push_cast
      nlinarith
    obtain rfl := Option.some.inj h
    rw [pyInt_of_nonneg (by linarith)]
    constructor
    · exact Int.le_floor.mpr (by exact_mod_cast hq20)
    · have := Int.floor_le_floor hq100
      rwa [show ⌊(100 : ℚ)⌋ = 100 by norm_num] at this

theorem calc_heat_range {c t : ℚ} {m : String} {dp : Option ℤ} {d : ℤ}
    (hm : m = "Heat" ∨ m = "AutoHeat")
    (hmc : ¬(m = "Cool" ∨ m = "AutoCool" ∨ m = "Auto" ∨ m = "Dry"))
    (ht : 15 < t)
    (h : calculate_open_percentage c t m dp = some d) :
    20 ≤ d ∧ d ≤ 100 := by
  rw [calculate_open_percentage, if_neg hmc, if_pos hm] at h
  by_cases hc : c ≥ t
  · rw [if_pos hc] at h
    rw [MIN_FAN_SPEED] at h
    obtain rfl : (20 : ℤ) = d := Option.some.inj h
    omega
  · rw [if_neg hc] at h
    have hden : (0 : ℚ) < t - AUTO_MIN_TEMP := by
      rw [AUTO_MIN_TEMP]; linarith
    rw [if_neg (by linarith)] at h
    set f := (t - c) / (t - AUTO_MIN_TEMP) with hf
    have hf0 : 0 < f := div_pos (by linarith [not_le.mp hc]) hden
    have hmin0 : (0 : ℚ) ≤ min f 1 := le_min hf0.le zero_le_one
    have hmin1 : min f 1 ≤ 1 := min_le_right f 1
    have hq20 : (20 : ℚ)
        ≤ (MIN_FAN_SPEED : ℚ) + min f 1 * ((MAX_FAN_SPEED : ℚ) - (MIN_FAN_SPEED : ℚ)) := by
      rw [MIN_FAN_SPEED, MAX_FAN_SPEED]
      push_cast
      nlinarith
    have hq100 : (MIN_FAN_SPEED : ℚ) + min f 1 * ((MAX_FAN_SPEED : ℚ) - (MIN_FAN_SPEED : ℚ))
        ≤ 100 := by
      rw [MIN_FAN_SPEED, MAX_FAN_SPEED]
      push_cast
      nlinarith
    obtain rfl := Option.some.inj h
    rw [pyInt_of_nonneg (by linarith)]
    constructor
    · exact Int.le_floor.mpr (by exact_mod_cast hq20)
    · have := Int.floor_le_floor hq100
      rwa [show ⌊(100 : ℚ)⌋ = 100 by norm_num] at this

theorem adjust_emits (s : TickState) (target : ℚ) (g : ℕ) (v : ℤ)
    (h : adjust_fan_speed s target = Except.ok (some (g, v))) :
    ∃ b ac c d, s.group.belongsToAc = some b ∧ s.acs.get? b = some ac ∧
      current_temperature s.sensorEntityId s.sensorState = some c ∧
      calculate_open_percentage c target (ac.acMode.getD "Fan") s.group.openPercentage
        = some d ∧
      g = s.group.groupNumber ∧ v = pyRound5 d := by
  rw [adjust_fan_speed] at h
  by_cases h1 : s.group.powerState.getD "Off" = "Off"
  · rw [if_pos h1] at h; exact absurd h (by simp)
  rw [if_neg h1] at h
  cases hbt : s.group.belongsToAc with
  | none => rw [hbt] at h; exact absurd h (by simp)
  | some b =>
    rw [hbt] at h
    simp only [] at h
    cases hac : s.acs.get? b with
    | none => rw [hac] at h; exact absurd h (by simp)
    | some ac =>
      rw [hac] at h
      simp only [] at h
      by_cases h2 : ac.powerState.getD "Off" = "Off"
      · rw [if_pos h2] at h; exact absurd h (by simp)
      rw [if_neg h2] at h
      cases hct : current_temperature s.sensorEntityId s.sensorState with
      | none => rw [hct] at h; exact absurd h (by simp)
      | some c =>
        rw [hct] at h
        simp only [] at h
        cases hcalc : calculate_open_percentage c target (ac.acMode.getD "Fan")
            s.group.openPercentage with
        | none => rw [hcalc] at h; exact absurd h (by simp)
        | some d =>
          rw [hcalc] at h
          simp only [] at h
          obtain ⟨hg, hv⟩ : s.group.groupNumber = g ∧ pyRound5 d = v := by
            simpa using h
          exact ⟨b, ac, c, d, rfl, hac, rfl, hcalc, hg.symm, hv.symm⟩

/-- C1 counterexample: the claim asserts that _calculate_open_percentage equals
the spec control law with fraction clamp(.., 0, 1).  At current 23, target 22,
mode Cool the code returns the truncated integer 24 while the law yields
220/9 (about 24.44); at current 42, target 41, mode Cool the code applies no
lower clamp and returns -60 while the clamped law yields 20. -/
theorem C1_claim_counterexample :
    calculate_open_percentage 23 22 "Cool" (some 0) = some 24 ∧
    spec_open_percentage 23 22 "Cool" 0 = 220/9 ∧
    ¬((220 : ℚ)/9 = (24 : ℚ)) ∧
    calculate_open_percentage 42 41 "Cool" (some 0) = some (-60) ∧
    spec_open_percentage 42 41 "Cool" 0 = 20 := by
  refine ⟨?_, ?_, by norm_num, ?_, ?_⟩
  · norm_num [calculate_open_percentage, MIN_FAN_SPEED, MAX_FAN_SPEED, AUTO_MAX_TEMP, pyInt]
  · norm_num [spec_open_percentage, MIN_FAN_SPEED, MAX_FAN_SPEED, AUTO_MAX_TEMP, clamp01]
  · norm_num [calculate_open_percentage, MIN_FAN_SPEED, MAX_FAN_SPEED, AUTO_MAX_TEMP, pyInt]
  · norm_num [spec_open_percentage, MIN_FAN_SPEED, MAX_FAN_SPEED, AUTO_MAX_TEMP, clamp01]

/-- C1 (amended): for cooling-family modes the aperture is 20 when the reading
is at or below target, and otherwise the truncation toward zero of
20 + min((c-t)/(40-t), 1) * 80 whenever t is not 40 - the fraction is capped
at 1 but not clamped below at 0; heating-family modes are symmetric with
divisor t - 15 for t not 15; any other mode returns the device-reported
aperture unchanged.  The spec examples hold: Cool target 22 gives 20 at
reading 22 and 60 at 31; Heat target 20 gives 20 at reading 20 and 84 at 16,
which the 5-step rounding carries to 85. -/
theorem C1_control_law :
    (∀ (c t : ℚ) (dp : Option ℤ) (m : String),
      (m = "Cool" ∨ m = "AutoCool" ∨ m = "Auto" ∨ m = "Dry") → c ≤ t →
      calculate_open_percentage c t m dp = some 20) ∧
    (∀ (c t : ℚ) (dp : Option ℤ) (m : String),
      (m = "Cool" ∨ m = "AutoCool" ∨ m = "Auto" ∨ m = "Dry") → t < c → t ≠ 40 →
      calculate_open_percentage c t m dp
        = some (pyInt (20 + min ((c - t) / (40 - t)) 1 * 80))) ∧
    (∀ (c t : ℚ) (dp : Option ℤ) (m : String),
      (m = "Heat" ∨ m = "AutoHeat") → t ≤ c →
      calculate_open_percentage c t m dp = some 20) ∧
    (∀ (c t : ℚ) (dp : Option ℤ) (m : String),
      (m = "Heat" ∨ m = "AutoHeat") → c < t → t ≠ 15 →
      calculate_open_percentage c t m dp
        = some (pyInt (20 + min ((t - c) / (t - 15)) 1 * 80))) ∧
    (∀ (c t : ℚ) (dp : ℤ) (m : String),
      ¬(m = "Cool" ∨ m = "AutoCool" ∨ m = "Auto" ∨ m = "Dry") →
      ¬(m = "Heat" ∨ m = "AutoHeat") →
      calculate_open_percentage c t m (some dp) = some dp) ∧
    calculate_open_percentage 22 22 "Cool" none = some 20 ∧
    calculate_open_percentage 31 22 "Cool" none = some 60 ∧
    calculate_open_percentage 20 20 "Heat" none = some 20 ∧
    calculate_open_percentage 16 20 "Heat" none = some 84 ∧
    pyRound5 84 = 85 := by
  refine ⟨?_, ?_, ?_, ?_, ?_, ?_, ?_, ?_, ?_, ?_⟩
  · intro c t dp m hm hc
    rw [calculate_open_percentage, if_pos hm, if_pos hc, MIN_FAN_SPEED]
  · intro c t dp m hm hc ht
    rw [calculate_open_percentage, if_pos hm, if_neg (not_le.mpr hc),
      if_neg (by rw [AUTO_MAX_TEMP]; intro h; exact ht (by linarith))]
    congr 2
    rw [MIN_FAN_SPEED, MAX_FAN_SPEED, AUTO_MAX_TEMP]
    push_cast
    ring_nf
  · intro c t dp m hm hc
    have hmc : ¬(m = "Cool" ∨ m = "AutoCool" ∨ m = "Auto" ∨ m = "Dry") := by
      rcases hm with rfl | rfl <;> decide
    rw [calculate_open_percentage, if_neg hmc, if_pos hm, if_pos hc, MIN_FAN_SPEED]
  · intro c t dp m hm hc ht
    have hmc : ¬(m = "Cool" ∨ m = "AutoCool" ∨ m = "Auto" ∨ m = "Dry") := by
      rcases hm with rfl | rfl <;> decide
    rw [calculate_open_percentage, if_neg hmc, if_pos hm,
      if_neg (not_le.mpr hc), if_neg (by rw [AUTO_MIN_TEMP]; intro h; exact ht (by linarith))]
    congr 2
    rw [MIN_FAN_SPEED, MAX_FAN_SPEED, AUTO_MIN_TEMP]
    push_cast
    ring_nf
  · intro c t dp m hmc hmh
    rw [calculate_open_percentage, if_neg hmc, if_neg hmh]
    rfl
  · norm_num [calculate_open_percentage, MIN_FAN_SPEED]
  · norm_num [calculate_open_percentage, MIN_FAN_SPEED, MAX_FAN_SPEED, AUTO_MAX_TEMP, pyInt]
  · rw [calculate_open_percentage, if_neg (by decide), if_pos (Or.inl rfl),
      if_pos le_rfl, MIN_FAN_SPEED]
  · norm_num [calculate_open_percentage, MIN_FAN_SPEED, MAX_FAN_SPEED, AUTO_MIN_TEMP, pyInt]
    decide
  · norm_num [pyRound5, pyRound]

/-- C1 witness: the amended cooling branch applied at reading 31, target 22. -/
theorem C1_control_law_witness :
    calculate_open_percentage 31 22 "Cool" (some 0)
      = some (pyInt (20 + min ((31 - 22) / (40 - 22)) 1 * 80)) :=
  C1_control_law.2.1 31 22 (some 0) "Cool" (Or.inl rfl) (by norm_num) (by norm_num)

/-- C2: a controller tick is a no-op (ok none - no driver command, no error)
whenever the zone is powered off, the owning-unit reference is absent, the
resolved owning unit is powered off, or the bound sensor reading is
unavailable; each condition suffices on its own.  The hypothesis hres is the
data-model invariant that a present owning-unit id resolves inside the unit
list of the same snapshot (spec section 3). -/
theorem C2_tick_gating (s : TickState) (target : ℚ)
    (hres : ∀ b, s.group.belongsToAc = some b → b < s.acs.length)
    (hgate : s.group.powerState.getD "Off" = "Off"
      ∨ s.group.belongsToAc = none
      ∨ (∃ b ac, s.group.belongsToAc = some b ∧ s.acs.get? b = some ac ∧
          ac.powerState.getD "Off" = "Off")
      ∨ current_temperature s.sensorEntityId s.sensorState = none) :
    adjust_fan_speed s target = Except.ok none := by
  rw [adjust_fan_speed]
  by_cases h1 : s.group.powerState.getD "Off" = "Off"
  · rw [if_pos h1]
  · rw [if_neg h1]
    cases hbt : s.group.belongsToAc with
    | none => rfl
    | some b =>
      simp only []
      have hblen := hres b hbt
      obtain ⟨ac, hac⟩ : ∃ ac, s.acs.get? b = some ac :=
        ⟨s.acs.get ⟨b, hblen⟩, List.get?_eq_get hblen⟩
      rw [hac]
      simp only []
      rcases hgate with h | h | ⟨b2, ac2, hb2, hac2, hoff⟩ | h
      · exact absurd h h1
      · rw [hbt] at h; exact absurd h (by simp)
      · obtain rfl : b2 = b := by rw [hbt] at hb2; exact (Option.some.inj hb2).symm
        obtain rfl : ac2 = ac := by rw [hac] at hac2; exact (Option.some.inj hac2).symm
        rw [if_pos hoff]
      · by_cases h2 : ac.powerState.getD "Off" = "Off"
        · rw [if_pos h2]
        · rw [if_neg h2, h]

/-- C2 witness: the gating theorem applied to a concrete powered-off zone. -/
theorem C2_tick_gating_witness :
    adjust_fan_speed tickStateZoneOff 24 = Except.ok none :=
  C2_tick_gating tickStateZoneOff 24
    (by intro b hb
        simp only [tickStateZoneOff, Option.some.injEq] at hb
        simp [tickStateZoneOff, ← hb])
    (Or.inl rfl)

/-- C3: when the driver reports a non-OK health status, the refresh fails with
the connectivity error before constructing any new data, and the committed
data exposed to consumers stays exactly the previous value, with the failure
surfaced to the supervisor. -/
theorem C3_failed_poll (prev : Option CoordData) (d : DriverState)
    (h : d.status ≠ Health.ok) :
    update_data d = Except.error "Airtouch connection issue" ∧
    coordinator_refresh prev d = (prev, false) := by
  have h1 : update_data d = Except.error "Airtouch connection issue" := by
    rw [update_data, if_pos h]
  exact ⟨h1, by rw [coordinator_refresh, h1]⟩

/-- C3 witness: a failed poll against a concrete previous snapshot. -/
theorem C3_failed_poll_witness :
    update_data { status := Health.err, acList := [], groupList := [] }
      = Except.error "Airtouch connection issue" ∧
    coordinator_refresh (some { acs := [], groups := [] })
        { status := Health.err, acList := [], groupList := [] }
      = (some { acs := [], groups := [] }, false) :=
  C3_failed_poll (some { acs := [], groups := [] })
    { status := Health.err, acList := [], groupList := [] } (by decide)

/-- C4 counterexample: the claim asserts a mode outside Off and FanOnly is
rejected with no driver command, but requesting Heat issues zone (and unit)
power-on commands in all three zone entity variants and raises nothing. -/
theorem C4_claim_counterexample :
    set_hvac_mode_manual 3 HVACMode.heat = [Cmd.turnGroupOn 3] ∧
    set_hvac_mode_group_custom 3 0 (some "Off") HVACMode.heat
      = [Cmd.turnGroupOn 3, Cmd.turnAcOn 0, Cmd.requestRefresh] ∧
    set_hvac_mode_group_core 3 0 (some "Off") HVACMode.heat
      = Except.ok [Cmd.turnGroupOn 3, Cmd.turnAcOn 0, Cmd.requestRefresh] :=
  ⟨rfl, rfl, rfl⟩

/-- C4 (amended): thermostatic-zone and manual-climate projections only ever
report Off or FanOnly (for the core zone projection whenever the power-state
attribute is present), but a requested mode outside that set is not rejected:
the manual climate turns the zone on for every non-Off mode, the custom-variant
zone treats every non-Off mode as turn-on-when-currently-off, and the
core-variant zone rejects only modes absent from the full device table
(HeatCool alone), likewise treating accepted non-Off modes as turn-on. -/
theorem C4_zone_mode_contract :
    (∀ ps, hvac_mode_group_custom ps = HVACMode.off
      ∨ hvac_mode_group_custom ps = HVACMode.fanOnly) ∧
    (∀ ps, hvac_mode_manual ps = HVACMode.off
      ∨ hvac_mode_manual ps = HVACMode.fanOnly) ∧
    (∀ p, hvac_mode_group_core (some p) = some HVACMode.off
      ∨ hvac_mode_group_core (some p) = some HVACMode.fanOnly) ∧
    (∀ (g : ℕ) (m : HVACMode), m ≠ HVACMode.off →
      set_hvac_mode_manual g m = [Cmd.turnGroupOn g]) ∧
    (∀ (g b : ℕ) (ps : Option String) (m : HVACMode), m ≠ HVACMode.off →
      set_hvac_mode_group_custom g b ps m
        = if hvac_mode_group_custom ps = HVACMode.off then turn_on_group g b else []) ∧
    (∀ (g b : ℕ) (ps : Option String) (m : HVACMode),
      m ≠ HVACMode.off → m ≠ HVACMode.heatCool →
      set_hvac_mode_group_core g b ps m
        = Except.ok (if hvac_mode_group_core ps = some HVACMode.off
            then turn_on_group g b else [])) ∧
    (∀ (g b : ℕ) (ps : Option String),
      set_hvac_mode_group_core g b ps HVACMode.heatCool
        = Except.error "Unsupported HVAC mode") := by
  refine ⟨?_, ?_, ?_, ?_, ?_, ?_, ?_⟩
  · intro ps
    rw [hvac_mode_group_custom]
    split_ifs <;> simp
  · intro ps
    rw [hvac_mode_manual]
    split_ifs <;> simp
  · intro p
    rw [hvac_mode_group_core]
    split_ifs <;> simp
  · intro g m hm
    rw [set_hvac_mode_manual, if_neg hm]
  · intro g b ps m hm
    rw [set_hvac_mode_group_custom, if_neg hm]
  · intro g b ps m hm hmc
    cases m <;> simp_all [set_hvac_mode_group_core, HA_STATE_TO_AT] <;> split_ifs <;> rfl
  · intro g b ps
    rfl

/-- C4 witness: requesting Cool on a powered-on core-variant zone is accepted
and issues no command. -/
theorem C4_zone_mode_contract_witness :
    set_hvac_mode_group_core 7 1 (some "On") HVACMode.cool
      = Except.ok (if hvac_mode_group_core (some "On") = some HVACMode.off
          then turn_on_group 7 1 else []) :=
  C4_zone_mode_contract.2.2.2.2.2.1 7 1 (some "On") HVACMode.cool
    (by decide) (by decide)

/-- C5 counterexample: the claim asserts the coordinator defaults unit power to
Off and unit mode to Fan, but with the attributes absent the built entries
carry "Unknown" for unit power, unit mode and zone power. -/
theorem C5_claim_counterexample :
    (buildAcEntry rawAcAbsent).power_state = "Unknown" ∧
    (buildAcEntry rawAcAbsent).power_state ≠ "Off" ∧
    (buildAcEntry rawAcAbsent).ac_mode = "Unknown" ∧
    (buildAcEntry rawAcAbsent).ac_mode ≠ "Fan" ∧
    (buildGroupEntry rawGroupAbsent).power_state = "Unknown" ∧
    (buildGroupEntry rawGroupAbsent).power_state ≠ "Off" :=
  ⟨rfl, by decide, rfl, by decide, rfl, by decide⟩

/-- C5 (amended): on a successful poll the coordinator defaults an absent unit
power state to "Unknown" (not Off), an absent unit mode to "Unknown" (not
Fan), an absent zone power state to "Unknown" (not Off); the remaining
defaults are as claimed: zone aperture 0 and fan speed "Auto". -/
theorem C5_snapshot_defaults (a : RawAc) (g : RawGroup)
    (hap : a.powerState = none) (ham : a.acMode = none) (haf : a.acFanSpeed = none)
    (hgp : g.powerState = none) (hgo : g.openPercentage = none) :
    (buildAcEntry a).power_state = "Unknown" ∧
    (buildAcEntry a).ac_mode = "Unknown" ∧
    (buildAcEntry a).fan_speed = "Auto" ∧
    (buildGroupEntry g).power_state = "Unknown" ∧
    (buildGroupEntry g).open_percent = 0 := by
  simp [buildAcEntry, buildGroupEntry, hap, ham, haf, hgp, hgo]

/-- C5 witness: the defaults theorem applied to fully-absent raw objects. -/
theorem C5_snapshot_defaults_witness :
    (buildAcEntry rawAcAbsent).power_state = "Unknown" ∧
    (buildAcEntry rawAcAbsent).ac_mode = "Unknown" ∧
    (buildAcEntry rawAcAbsent).fan_speed = "Auto" ∧
    (buildGroupEntry rawGroupAbsent).power_state = "Unknown" ∧
    (buildGroupEntry rawGroupAbsent).open_percent = 0 :=
  C5_snapshot_defaults rawAcAbsent rawGroupAbsent rfl rfl rfl rfl rfl

/-- C6 counterexample: the claim asserts every issued aperture lies in
[20, 100] (clamped if needed), but with the owning unit in mode Fan and the
zone device aperture 0 the tick issues the aperture command 0, unclamped. -/
theorem C6_claim_counterexample :
    adjust_fan_speed tickStateFanModeZero 24 = Except.ok (some (2, 0)) ∧
    ¬(20 ≤ (0 : ℤ)) := by
  refine ⟨?_, by decide⟩
  have hct : current_temperature (some "sensor.t") (some "25") = some 25 := by
    simp only [current_temperature]
    rw [if_neg (by decide), if_neg (by decide)]
    rw [pyFloat, show pyFloatParts "25" = some (false, ['2','5'], []) from rfl]
    norm_num [partsToRat, natOfDigits_nil, show natOfDigits ['2','5'] = 25 from rfl]
  simp only [tickStateFanModeZero, adjust_fan_speed, Option.getD, List.get?]
  rw [hct, if_neg (by decide), if_neg (by decide)]
  simp only []
  rw [show calculate_open_percentage 25 24 "Fan" (some 0) = some 0 by
    simp only [calculate_open_percentage]
    rw [if_neg (by decide), if_neg (by decide)]
    rfl]
  simp only []
  rw [show pyRound5 0 = 0 by norm_num [pyRound5, pyRound]]

/-- C6 (amended): every aperture command the tick issues is the computed value
rounded to the nearest 5-point step (a multiple of 5 within distance 2 of the
raw value); no clamping is performed, but whenever the owning unit is in a
cooling-family mode with target below 40, or a heating-family mode with
target above 15, the issued value necessarily lies in [20, 100].  In other
unit modes the rounded device-reported aperture is re-issued and can lie
outside that interval. -/
theorem C6_issued_aperture :
    (∀ (s : TickState) (target : ℚ) (g : ℕ) (v : ℤ),
      adjust_fan_speed s target = Except.ok (some (g, v)) →
      (5 : ℤ) ∣ v ∧
      ∃ b ac c d, s.group.belongsToAc = some b ∧ s.acs.get? b = some ac ∧
        current_temperature s.sensorEntityId s.sensorState = some c ∧
        calculate_open_percentage c target (ac.acMode.getD "Fan")
          s.group.openPercentage = some d ∧
        v = pyRound5 d ∧ |v - d| ≤ 2) ∧
    (∀ (s : TickState) (target : ℚ) (g : ℕ) (v : ℤ) (b : ℕ) (ac : AirTouchAcState),
      s.group.belongsToAc = some b → s.acs.get? b = some ac →
      (ac.acMode.getD "Fan" = "Cool" ∨ ac.acMode.getD "Fan" = "AutoCool"
        ∨ ac.acMode.getD "Fan" = "Auto" ∨ ac.acMode.getD "Fan" = "Dry") →
      target < 40 →
      adjust_fan_speed s target = Except.ok (some (g, v)) →
      20 ≤ v ∧ v ≤ 100) ∧
    (∀ (s : TickState) (target : ℚ) (g : ℕ) (v : ℤ) (b : ℕ) (ac : AirTouchAcState),
      s.group.belongsToAc = some b → s.acs.get? b = some ac →
      (ac.acMode.getD "Fan" = "Heat" ∨ ac.acMode.getD "Fan" = "AutoHeat") →
      15 < target →
      adjust_fan_speed s target = Except.ok (some (g, v)) →
      20 ≤ v ∧ v ≤ 100) := by
  refine ⟨?_, ?_, ?_⟩
  · intro s target g v h
    obtain ⟨b, ac, c, d, hbt, hac, hct, hcalc, _, hv⟩ := adjust_emits s target g v h
    subst hv
    exact ⟨pyRound5_dvd d, b, ac, c, d, hbt, hac, hct, hcalc, rfl, pyRound5_near d⟩
  · intro s target g v b ac hbt hac hm ht h
    obtain ⟨b2, ac2, c, d, hbt2, hac2, hct, hcalc, _, hv⟩ := adjust_emits s target g v h
    obtain rfl : b = b2 := by rw [hbt] at hbt2; exact Option.some.inj hbt2
    obtain rfl : ac = ac2 := by rw [hac] at hac2; exact Option.some.inj hac2
    obtain ⟨hd1, hd2⟩ := calc_cool_range hm ht hcalc
    subst hv
    exact pyRound5_range hd1 hd2
  · intro s target g v b ac hbt hac hm ht h
    obtain ⟨b2, ac2, c, d, hbt2, hac2, hct, hcalc, _, hv⟩ := adjust_emits s target g v h
    obtain rfl : b = b2 := by rw [hbt] at hbt2; exact Option.some.inj hbt2
    obtain rfl : ac = ac2 := by rw [hac] at hac2; exact Option.some.inj hac2
    have hmc : ¬(ac.acMode.getD "Fan" = "Cool" ∨ ac.acMode.getD "Fan" = "AutoCool"
        ∨ ac.acMode.getD "Fan" = "Auto" ∨ ac.acMode.getD "Fan" = "Dry") := by
      rcases hm with hm | hm <;> rw [hm] <;> decide
    obtain ⟨hd1, hd2⟩ := calc_heat_range hm hmc ht hcalc
    subst hv
    exact pyRound5_range hd1 hd2

/-- Evaluation of one concrete cooling tick: reading 31 against target 22 in
mode Cool issues aperture 60. -/
theorem tickStateCool_run :
    adjust_fan_speed tickStateCool 22 = Except.ok (some (1, 60)) := by
  have hct : current_temperature (some "sensor.t") (some "31") = some 31 := by
    simp only [current_temperature]
    rw [if_neg (by decide), if_neg (by decide)]
    rw [pyFloat, show pyFloatParts "31" = some (false, ['3','1'], []) from rfl]
    norm_num [partsToRat, natOfDigits_nil, show natOfDigits ['3','1'] = 31 from rfl]
  simp only [tickStateCool, adjust_fan_speed, Option.getD, List.get?]
  rw [hct, if_neg (by decide), if_neg (by decide)]
  simp only []
  rw [show calculate_open_percentage 31 22 "Cool" none = some 60 by
    norm_num [calculate_open_percentage, MIN_FAN_SPEED, MAX_FAN_SPEED, AUTO_MAX_TEMP, pyInt]]
  simp only []
  rw [show pyRound5 60 = 60 by norm_num [pyRound5, pyRound]]

/-- C6 witness: the in-range part applied to the concrete cooling tick that
issues aperture 60. -/
theorem C6_issued_aperture_witness : 20 ≤ (60 : ℤ) ∧ (60 : ℤ) ≤ 100 :=
  C6_issued_aperture.2.1 tickStateCool 22 1 60 0
    { powerState := some "On", acMode := some "Cool", acFanSpeed := none }
    rfl rfl (Or.inl rfl) (by norm_num) tickStateCool_run

/-- C7: the degenerate divisor is not guarded - at target 40 in a cooling mode
(resp. target 15 in a heating mode) with the reading past the target the code
divides by zero and raises (modelled as none), while the spec law treats the
fraction as 1 and yields aperture 100. -/
theorem C7_degenerate_divisor :
    calculate_open_percentage 41 40 "Cool" (some 50) = none ∧
    calculate_open_percentage 14 15 "Heat" (some 50) = none ∧
    spec_open_percentage 41 40 "Cool" 50 = 100 ∧
    spec_open_percentage 14 15 "Heat" 50 = 100 := by
  refine ⟨?_, ?_, ?_, ?_⟩
  · norm_num [calculate_open_percentage, AUTO_MAX_TEMP]
  · rw [calculate_open_percentage, if_neg (by decide), if_pos (Or.inl rfl),
      if_neg (by norm_num), if_pos (by rw [AUTO_MIN_TEMP]; norm_num)]
  · norm_num [spec_open_percentage, AUTO_MAX_TEMP, MIN_FAN_SPEED, MAX_FAN_SPEED, clamp01]
  · norm_num [spec_open_percentage, AUTO_MIN_TEMP, MIN_FAN_SPEED, MAX_FAN_SPEED, clamp01]
    decide

/-- C8 counterexample: the claim asserts every fan-speed projection maps an
unknown device speed to Auto without raising, but the core zone fan_mode and
the core fan_modes list raise KeyError, and the custom AC fan_mode falls back
to None rather than Auto. -/
theorem C8_claim_counterexample :
    fan_mode_group_core "Blast" = Except.error "KeyError" ∧
    fan_mode_ac_custom (some "Blast") = none ∧
    fan_modes_ac_core ["High", "Blast"] = Except.error "KeyError" :=
  ⟨rfl, rfl, rfl⟩

/-- C8 (amended): the seven tabulated speeds map to their abstract
counterparts in every projection, but the fallback behaviour differs per
projection: the core AC fan_mode and the custom fan_modes list fall back to
Auto, the custom AC fan_mode falls back to None, and the core zone fan_mode
and core fan_modes list raise KeyError on a speed absent from the table. -/
theorem C8_fan_speed_projections :
    (AT_TO_HA_FAN_SPEED "Quiet" = some FAN_DIFFUSE ∧
     AT_TO_HA_FAN_SPEED "Low" = some FAN_LOW ∧
     AT_TO_HA_FAN_SPEED "Medium" = some FAN_MEDIUM ∧
     AT_TO_HA_FAN_SPEED "High" = some FAN_HIGH ∧
     AT_TO_HA_FAN_SPEED "Powerful" = some FAN_FOCUS ∧
     AT_TO_HA_FAN_SPEED "Auto" = some FAN_AUTO ∧
     AT_TO_HA_FAN_SPEED "Turbo" = some "turbo") ∧
    (∀ sp v, AT_TO_HA_FAN_SPEED sp = some v →
      fan_mode_ac_core (some sp) = v ∧
      fan_mode_ac_custom (some sp) = some v ∧
      fan_mode_group_core sp = Except.ok v) ∧
    (∀ sp, AT_TO_HA_FAN_SPEED sp = none →
      fan_mode_ac_core (some sp) = FAN_AUTO ∧
      fan_mode_ac_custom (some sp) = none ∧
      fan_mode_group_core sp = Except.error "KeyError" ∧
      fan_modes_ac_custom [sp] = [FAN_AUTO] ∧
      fan_modes_ac_core [sp] = Except.error "KeyError") ∧
    fan_mode_ac_core none = FAN_AUTO ∧
    fan_mode_ac_custom none = some FAN_AUTO := by
  refine ⟨⟨rfl, rfl, rfl, rfl, rfl, rfl, rfl⟩, ?_, ?_, rfl, rfl⟩
  · intro sp v h
    exact ⟨by simp [fan_mode_ac_core, h], by simp [fan_mode_ac_custom, h],
      by rw [fan_mode_group_core, h]⟩
  · intro sp h
    refine ⟨?_, ?_, ?_, ?_, ?_⟩
    · simp [fan_mode_ac_core, h]
    · simp [fan_mode_ac_custom, h]
    · rw [fan_mode_group_core, h]
    · simp [fan_modes_ac_custom, h]
    · simp [fan_modes_ac_core, List.mapM, List.mapM.loop, h]

/-- C8 witness: the fallback part applied to the unknown speed "Blast". -/
theorem C8_fan_speed_projections_witness :
    fan_mode_ac_core (some "Blast") = FAN_AUTO ∧
    fan_mode_ac_custom (some "Blast") = none ∧
    fan_mode_group_core "Blast" = Except.error "KeyError" ∧
    fan_modes_ac_custom ["Blast"] = [FAN_AUTO] ∧
    fan_modes_ac_core ["Blast"] = Except.error "KeyError" :=
  C8_fan_speed_projections.2.2.1 "Blast" rfl

/-- C9: the manual-climate target temperature is created at 24.0, is left
unchanged by coordinator updates and by controller ticks, and is replaced
only by an explicit set-temperature command, which itself issues no driver
call. -/
theorem C9_target_temperature_frame :
    manual_climate_init.target_temp = 24 ∧
    (∀ st, handle_coordinator_update_manual st = st) ∧
    (∀ st s, (adjust_fan_speed_step st s).1.target_temp = st.target_temp) ∧
    (∀ st s, (adjust_fan_speed_step st s).2 = adjust_fan_speed s st.target_temp) ∧
    (∀ st t, (async_set_temperature st (some t)).1.target_temp = t) ∧
    (∀ st t, (async_set_temperature st (some t)).2 = []) ∧
    (∀ st, async_set_temperature st none = (st, [])) :=
  ⟨rfl, fun _ => rfl, fun _ _ => rfl, fun _ _ => rfl, fun _ _ => rfl,
    fun _ _ => rfl, fun _ => rfl⟩

/-- C10: in both fan-entity implementations, requesting exactly 0 percent
issues the zone power-off command and no aperture command, while any nonzero
percentage issues exactly one aperture command carrying that value and no
power command. -/
theorem C10_set_percentage (g : ℕ) (p : ℤ) :
    (p = 0 → async_set_percentage_core g p = [Cmd.turnGroupOff g] ∧
      async_set_percentage_advanced g p = [Cmd.turnGroupOff g]) ∧
    (p ≠ 0 → async_set_percentage_core g p = [Cmd.setGroupToPercentage g p] ∧
      async_set_percentage_advanced g p = [Cmd.setGroupToPercentage g p]) := by
  constructor <;> intro h <;>
    simp [async_set_percentage_core, async_set_percentage_advanced, h]

/-- C10 witness: 0 percent turns the zone off; 50 percent issues one aperture
command. -/
theorem C10_set_percentage_witness :
    async_set_percentage_core 3 0 = [Cmd.turnGroupOff 3] ∧
    async_set_percentage_advanced 3 50 = [Cmd.setGroupToPercentage 3 50] :=
  ⟨((C10_set_percentage 3 0).1 rfl).1, ((C10_set_percentage 3 50).2 (by decide)).2⟩
